import Mathlib

/-!
Verification of the noVNC audio plugin client (`audio-plugin.js`) against its
natural-language specification.

The JavaScript is single-threaded and event-driven, so it is embedded as a
state machine: each event handler and method body becomes a Lean step
function on an explicit state record.  Values that the browser supplies at
run time (whether `appendBuffer` throws a `QuotaExceededError`, whether
`sourceBuffer.updating` is true afterwards, the value of
`sourceBuffer.buffered.end(0)`) are passed to the step functions as oracle
arguments, so theorems quantify over every possible behaviour of the
platform primitive.  Media timestamps are rationals (`buffered.end(0)` is a
double, i.e. not an integer).  Encoded segments are opaque and modelled as
naturals.
-/

namespace NoVNCAudio

/-- Faults that the platform `SourceBuffer.appendBuffer` primitive can raise:
`QuotaExceededError` (capacity fault) or any other error. -/
inductive ApErr
  | quota
  | other
deriving DecidableEq, Repr

/-- Errors observable from `MediaSourcePlayer` methods and handlers:
`Not attached to any elements` (audio-plugin.js:103), `Bad MediaSource state`
(line 106), `Already attached to an element` (line 77), or a fault
propagating from `appendBuffer`. -/
inductive MSErr
  | notAttached
  | invalidState
  | alreadyAttached
  | append (e : ApErr)
deriving DecidableEq, Repr

/-- Readiness of the media source as the code consults `readyState`
(audio-plugin.js:105): `closed` until the `sourceopen` event fires,
`opened` afterwards. -/
inductive ReadyState
  | closed
  | opened
deriving DecidableEq, Repr

/-- State of one `MediaSourcePlayer` instance (audio-plugin.js:12-131)
together with the state of the bound media element and instrumentation
logs.  `attachedEl` is whether the private `#attachedEl` field is set;
`directFeed` and `dataQueue` are the private fields of the same names;
`appended` is the log of successful `sourceBuffer.appendBuffer` calls in
order; `removed` is the log of `sourceBuffer.remove(a, b)` calls; `fed` is
the log of `feed` invocations in call order.  `playListener`, `elHasSrc`,
`elPaused` and `elTime` model the media-element side effects of
`attach`/`detach`. -/
structure MSP where
  attachedEl : Bool
  readyState : ReadyState
  directFeed : Bool
  dataQueue : List Nat
  appended : List Nat
  removed : List (ℚ × ℚ)
  fed : List Nat
  playListener : Bool
  elHasSrc : Bool
  elPaused : Bool
  elTime : ℚ
deriving DecidableEq, Repr

/-- A freshly constructed `MediaSourcePlayer` (audio-plugin.js:18-24):
`#directFeed = true`, `#dataQueue = []`, not attached, media source not yet
open. -/
def MSP.init : MSP :=
  { attachedEl := false
    readyState := .closed
    directFeed := true
    dataQueue := []
    appended := []
    removed := []
    fed := []
    playListener := false
    elHasSrc := false
    elPaused := true
    elTime := 0 }

/-- Synchronous body of `attach(element)` (audio-plugin.js:75-88): throws
`Already attached to an element` when `#attachedEl` is set, otherwise sets
the element source, registers the `play` listener and records the element.
The returned promise resolves later, at the `sourceopen` event. -/
def attachStep (s : MSP) : MSP × Option MSErr :=
  if s.attachedEl then (s, some .alreadyAttached)
  else ({ s with elHasSrc := true, playListener := true, attachedEl := true }, none)

/-- The `sourceopen` event (audio-plugin.js:26-72, 85-87): the media source
reaches its open state, the source buffer is created and the `updateend`
listener registered, and the pending `attach` promise resolves. -/
def sourceopenStep (s : MSP) : MSP :=
  { s with readyState := .opened }

/-- Body of `detach()` (audio-plugin.js:91-99): when an element is attached,
unregister the `play` listener, pause the element, drop its `src` attribute
and reset its position.  The body contains no throw path, so the function is
total; note that it clears neither `#attachedEl` nor `#dataQueue`. -/
def detachStep (s : MSP) : MSP :=
  if s.attachedEl then
    { s with playListener := false, elPaused := true, elHasSrc := false, elTime := 0 }
  else s

/-- Body of `feed(data)` (audio-plugin.js:101-120).  Guards: not attached →
throw; media source not open → throw.  Direct-feed path: `appendBuffer`
directly (any fault it raises propagates to the caller, there is no
try/catch here); on success disable direct feed if the buffer reports busy.
Otherwise push the segment on the queue.  `apErr` is the oracle for whether
this `appendBuffer` call throws, `busyAfter` the oracle for
`sourceBuffer.updating` right after it. -/
def feedStep (s : MSP) (d : Nat) (apErr : Option ApErr) (busyAfter : Bool) :
    MSP × Option MSErr :=
  let s := { s with fed := s.fed ++ [d] }
  if s.attachedEl = false then (s, some .notAttached)
  else if s.readyState ≠ .opened then (s, some .invalidState)
  else if s.directFeed then
    match apErr with
    | some e => (s, some (.append e))
    | none =>
      let s := { s with appended := s.appended ++ [d] }
      if busyAfter then ({ s with directFeed := false }, none) else (s, none)
  else
    ({ s with dataQueue := s.dataQueue ++ [d] }, none)

/-- The eviction upper bound the code computes (audio-plugin.js:57-60):
`removeEnd = bufferEnd - BUFFER_MIN_REMAIN`, and the second argument of
`remove` is `(removeEnd <= 0) ? 1 : removeEnd`. -/
def codeRemoveEnd (bufEnd : ℚ) : ℚ :=
  let removeEnd := bufEnd - 30
  if removeEnd ≤ 0 then 1 else removeEnd

/-- Modelled from the spec: the eviction upper bound as the spec's testable
property states it, `max(1, bufferedEnd − MIN_RETAIN)` with `MIN_RETAIN = 30`.
Kept separate from `codeRemoveEnd` so the two can be compared. -/
def claimRemoveEnd (bufEnd : ℚ) : ℚ :=
  max 1 (bufEnd - 30)

/-- The `updateend` listener (audio-plugin.js:33-71).  Oracles: `stillUpd`
is the value of `sourceBuffer.updating` read by the guard at line 35; `e1`
whether the first `appendBuffer` throws; `bufEnd` the value of
`buffered.end(0)`; `removeBusy` the value of `updating` read at line 61
after `remove`; `e2` whether the retry `appendBuffer` throws.  Before the
`sourceopen` event no source buffer exists and no listener is registered,
so the event is a no-op then.  The returned error is what escapes the
listener into the event loop (the rethrow at line 68 or an uncaught throw
from the retry at line 62). -/
def updateendStep (s : MSP) (stillUpd : Bool) (e1 : Option ApErr) (bufEnd : ℚ)
    (removeBusy : Bool) (e2 : Option ApErr) : MSP × Option MSErr :=
  if s.readyState ≠ .opened then (s, none)
  else if stillUpd then (s, none)
  else
    match s.dataQueue with
    | [] => ({ s with directFeed := true }, none)
    | d :: rest =>
      match e1 with
      | none => ({ s with appended := s.appended ++ [d], dataQueue := rest }, none)
      | some .quota =>
        let s := { s with removed := s.removed ++ [(0, codeRemoveEnd bufEnd)] }
        if removeBusy then (s, none)
        else
          match e2 with
          | none => ({ s with appended := s.appended ++ [d], dataQueue := rest }, none)
          | some e => (s, some (.append e))
      | some .other => (s, some (.append .other))

/-- One external event delivered to a `MediaSourcePlayer` instance, carrying
the oracle values the browser would supply while handling it. -/
inductive Ev
  | attach
  | sourceopen
  | detach
  | feed (d : Nat) (apErr : Option ApErr) (busyAfter : Bool)
  | updateend (stillUpd : Bool) (e1 : Option ApErr) (bufEnd : ℚ)
      (removeBusy : Bool) (e2 : Option ApErr)

/-- Apply one event to the state (errors escape to the event loop or the
caller; the state reached is the same either way, as in the JavaScript,
where mutations before a throw persist). -/
def step (s : MSP) : Ev → MSP
  | .attach => (attachStep s).1
  | .sourceopen => sourceopenStep s
  | .detach => detachStep s
  | .feed d e b => (feedStep s d e b).1
  | .updateend su e1 be rb e2 => (updateendStep s su e1 be rb e2).1

/-- Run a sequence of events on a fresh `MediaSourcePlayer`. -/
def run (evs : List Ev) : MSP :=
  evs.foldl step MSP.init

/-- The handshake message `AudioProxy.handshake` serializes and sends
(audio-plugin.js:272-277): `CD:<codec>\nBR:<bitrate>\nSR:<sampleRate>\n\n`,
then `sec:<secret>` when the secret is non-null, then a final `\n`. -/
def handshakeMsg (codec bitrate sampleRate : String) (secret : Option String) :
    String :=
  let msg := "CD:" ++ codec ++ "\nBR:" ++ bitrate ++ "\nSR:" ++ sampleRate ++ "\n\n"
  let msg :=
    match secret with
    | some s => msg ++ "sec:" ++ s
    | none => msg
  msg ++ "\n"

/-- State of the promise returned by `AudioProxy.handshake`
(audio-plugin.js:279-290).  Its executor only ever captures `resolve`; no
`reject` function is taken, so the promise can never reject: it is either
still pending or resolved. -/
inductive PromiseState
  | pending
  | resolvedP
deriving DecidableEq, Repr

/-- Whitespace trimming from both ends of a string, as `String.trim()` in
the listener (audio-plugin.js:281) performs on the decoded text. -/
def jsTrim (s : String) : String :=
  ⟨((s.data.dropWhile Char.isWhitespace).reverse.dropWhile Char.isWhitespace).reverse⟩

/-- Test whether the first list is an initial segment of the second, as
`String.startsWith` in the listener (audio-plugin.js:284) does. -/
def startsList : List Char → List Char → Bool
  | [], _ => true
  | _ :: _, [] => false
  | a :: as, b :: bs => a == b && startsList as bs

/-- The one-shot `message` listener registered inside the handshake promise
executor (audio-plugin.js:280-289), applied to the decoded inbound text.
It trims the text; on `READY` it calls `resolve`; on an `ERR:`-prefixed
response it throws `Proxy error: <rest of the trimmed text after the first
four characters>`; otherwise it throws `Protocol error`.  The throw happens
inside the event listener, after the executor has already returned, so it
does not reject the promise: the returned pair is (promise state after the
event, message of the error that escapes to the event loop, if any). -/
def handshakeOnMessage (resp : String) : PromiseState × Option String :=
  let r := jsTrim resp
  if r = "READY" then (.resolvedP, none)
  else if startsList "ERR:".data r.data then
    (.pending, some ("Proxy error: " ++ ⟨r.data.drop 4⟩))
  else (.pending, some "Protocol error")

/-- The settings `startAudio` reads (audio-plugin.js:315-317) plus the
`audio_secret` setting that the UI defines (audio-plugin.js:438).
A missing/empty secret is `none`. -/
structure Settings where
  audio_codec : String
  audio_bitrate : String
  audio_samplerate : String
  audio_secret : Option String
deriving DecidableEq, Repr

/-- The handshake message that `startAudio` causes to be sent: it invokes
`AudioProxy.handshake(this.ws, codec, bitrate, samplerate)`
(audio-plugin.js:367) with no further argument, so the `secret` parameter
takes its default value `null` (audio-plugin.js:268); the `audio_secret`
setting is never read by `startAudio`. -/
def startAudioHandshakeMsg (st : Settings) : String :=
  handshakeMsg st.audio_codec st.audio_bitrate st.audio_samplerate none

/-- Session-level state of the `AudioPlugin` singleton (audio-plugin.js:
294-296): whether the `msp` field holds a `MediaSourcePlayer` (with its
state) and whether the `ws` field holds a WebSocket handle. -/
structure PluginState where
  msp : Option MSP
  ws : Bool
deriving DecidableEq, Repr

/-- Body of `stopAudio()` (audio-plugin.js:392-402): when `msp` is set,
detach it and null the field; when `ws` is set, close it and null the
field.  Returns the new state together with whether a detach and whether a
close were performed on this call.  Both branches are total (`detachStep`
has no throw path and `close` is fire-and-forget), so `stopAudio` raises no
error. -/
def stopAudio (p : PluginState) : PluginState × Bool × Bool :=
  match p.msp with
  | some m =>
    let _ := detachStep m
    if p.ws then ({ msp := none, ws := false }, true, true)
    else ({ msp := none, ws := false }, true, false)
  | none =>
    if p.ws then ({ msp := none, ws := false }, false, true)
    else ({ msp := none, ws := false }, false, false)

/-- Invariant of the `MediaSourcePlayer` state machine: the direct-feed
flag is only set while the queue is empty, and the successful appends
followed by the still-queued segments form an order-preserving subsequence
of the `feed` call log. -/
abbrev Inv (s : MSP) : Prop :=
  (s.directFeed = true → s.dataQueue = []) ∧
  (s.appended ++ s.dataQueue).Sublist s.fed

theorem Inv_init : Inv MSP.init := by
  constructor <;> simp [MSP.init]

theorem sublist_snoc {α : Type} {l f : List α} (d : α) (h : l.Sublist f) :
    l.Sublist (f ++ [d]) :=
  h.trans (List.sublist_append_left _ _)

theorem sublist_snoc_both {α : Type} {a q f : List α} (d : α)
    (h : (a ++ q).Sublist f) : (a ++ (q ++ [d])).Sublist (f ++ [d]) := by
  rw [← List.append_assoc]
  exact h.append (List.Sublist.refl _)

theorem Inv_step (s : MSP) (e : Ev) (h : Inv s) : Inv (step s e) := by
  obtain ⟨h1, h2⟩ := h
  cases e with
  | attach =>
    rcases hA : s.attachedEl with _ | _
    · refine ⟨?_, ?_⟩
      · simpa [step, attachStep, hA] using h1
      · simpa [step, attachStep, hA] using h2
    · refine ⟨?_, ?_⟩
      · simpa [step, attachStep, hA] using h1
      · simpa [step, attachStep, hA] using h2
  | sourceopen => exact ⟨h1, h2⟩
  | detach =>
    rcases hA : s.attachedEl with _ | _
    · refine ⟨?_, ?_⟩
      · simpa [step, detachStep, hA] using h1
      · simpa [step, detachStep, hA] using h2
    · refine ⟨?_, ?_⟩
      · simpa [step, detachStep, hA] using h1
      · simpa [step, detachStep, hA] using h2
  | feed d apErr busyAfter =>
    rcases hA : s.attachedEl with _ | _
    · refine ⟨?_, ?_⟩
      · simpa [step, feedStep, hA] using h1
      · simpa [step, feedStep, hA] using sublist_snoc d h2
    · rcases hR : s.readyState with _ | _
      · refine ⟨?_, ?_⟩
        · simpa [step, feedStep, hA, hR] using h1
        · simpa [step, feedStep, hA, hR] using sublist_snoc d h2
      · rcases hD : s.directFeed with _ | _
        · refine ⟨?_, ?_⟩
          · simp [step, feedStep, hA, hR, hD]
          · simpa [step, feedStep, hA, hR, hD] using sublist_snoc_both d h2
        · have hq : s.dataQueue = [] := h1 hD
          cases apErr with
          | some e =>
            refine ⟨?_, ?_⟩
            · simpa [step, feedStep, hA, hR, hD] using h1
            · simpa [step, feedStep, hA, hR, hD] using sublist_snoc d h2
          | none =>
            have h2' : ((s.appended ++ [d]) ++ s.dataQueue).Sublist (s.fed ++ [d]) := by
              simp only [hq, List.append_nil] at h2 ⊢
              exact h2.append (List.Sublist.refl _)
            rcases hB : busyAfter with _ | _
            · refine ⟨?_, ?_⟩
              · intro _; simpa [step, feedStep, hA, hR, hD, hB] using hq
              · simpa [step, feedStep, hA, hR, hD, hB] using h2'
            · refine ⟨?_, ?_⟩
              · simp [step, feedStep, hA, hR, hD, hB]
              · simpa [step, feedStep, hA, hR, hD, hB] using h2'
  | updateend su e1 be rb e2 =>
    rcases hR : s.readyState with _ | _
    · refine ⟨?_, ?_⟩
      · simpa [step, updateendStep, hR] using h1
      · simpa [step, updateendStep, hR] using h2
    · rcases hS : su with _ | _
      · cases hq : s.dataQueue with
        | nil =>
          refine ⟨?_, ?_⟩
          · intro _; simp [step, updateendStep, hR, hS, hq]
          · simpa [step, updateendStep, hR, hS, hq] using h2
        | cons d rest =>
          rw [hq] at h2
          have h1' : ¬s.directFeed = true := by
            intro hc
            rw [h1 hc] at hq
            exact List.noConfusion hq
          have h2' : ((s.appended ++ [d]) ++ rest).Sublist s.fed := by
            simpa [List.append_assoc] using h2
          cases e1 with
          | none =>
            refine ⟨?_, ?_⟩
            · intro hc
              exact absurd (by simpa [step, updateendStep, hR, hS, hq] using hc) h1'
            · simpa [step, updateendStep, hR, hS, hq] using h2'
          | some e =>
            cases e with
            | quota =>
              rcases hRb : rb with _ | _
              · cases e2 with
                | none =>
                  refine ⟨?_, ?_⟩
                  · intro hc
                    exact absurd
                      (by simpa [step, updateendStep, hR, hS, hq, hRb] using hc) h1'
                  · simpa [step, updateendStep, hR, hS, hq, hRb] using h2'
                | some e =>
                  refine ⟨?_, ?_⟩
                  · intro hc
                    exact absurd
                      (by simpa [step, updateendStep, hR, hS, hq, hRb] using hc) h1'
                  · simpa [step, updateendStep, hR, hS, hq, hRb] using h2
              · refine ⟨?_, ?_⟩
                · intro hc
                  exact absurd
                    (by simpa [step, updateendStep, hR, hS, hq, hRb] using hc) h1'
                · simpa [step, updateendStep, hR, hS, hq, hRb] using h2
            | other =>
              refine ⟨?_, ?_⟩
              · intro hc
                exact absurd (by simpa [step, updateendStep, hR, hS, hq] using hc) h1'
              · simpa [step, updateendStep, hR, hS, hq] using h2
      · refine ⟨?_, ?_⟩
        · simpa [step, updateendStep, hR, hS] using h1
        · simpa [step, updateendStep, hR, hS] using h2

theorem Inv_foldl (evs : List Ev) (s : MSP) (h : Inv s) :
    Inv (evs.foldl step s) := by
  induction evs generalizing s with
  | nil => exact h
  | cons e evs ih => exact ih (step s e) (Inv_step s e h)

theorem Inv_run (evs : List Ev) : Inv (run evs) :=
  Inv_foldl evs MSP.init Inv_init

/-- C1: over every event sequence on one `MediaSourcePlayer` instance —
`feed` calls interleaved with arbitrary `updateend` completions, under every
platform-oracle behaviour — the segments successfully appended to the
primitive, followed by those still pending in the queue, form an
order-preserving subsequence of the `feed` call log; in particular the
append order equals the `feed` call order and no segment is ever
reordered. -/
theorem C1_fifo_order (evs : List Ev) :
    ((run evs).appended ++ (run evs).dataQueue).Sublist (run evs).fed ∧
    (run evs).appended.Sublist (run evs).fed := by
  have h := (Inv_run evs).2
  exact ⟨h, (List.sublist_append_left _ _).trans h⟩

/-- A reachable `MediaSourcePlayer` state: attached, media source open,
direct feed still enabled, nothing fed yet. -/
def attachedState : MSP :=
  run [.attach, .sourceopen]

/-- A reachable `MediaSourcePlayer` state: attached and open; a first direct
feed (segment 5) left the primitive busy, and a second feed queued
segment 7. -/
def busyQueuedState : MSP :=
  run [.attach, .sourceopen, .feed 5 none true, .feed 7 none false]

/-- A reachable `MediaSourcePlayer` state with two segments (7 and 9)
pending in the queue. -/
def queuedTwoState : MSP :=
  run [.attach, .sourceopen, .feed 5 none true, .feed 7 none false, .feed 9 none false]

/-- C2 counterexample: with the buffered range ending at 30.5 seconds, the
code computes `removeEnd = 0.5` and, since `0.5 ≤ 0` is false, evicts the
range `[0, 0.5]`, whereas the claim's formula `[0, max(1, bufferedEnd − 30)]`
demands `[0, 1]`; the two disagree whenever `30 < bufferedEnd < 31`. -/
theorem C2_counterexample :
    (updateendStep busyQueuedState false (some .quota) (61 / 2) false none).1.removed
      = [(0, 1 / 2)]
    ∧ codeRemoveEnd (61 / 2) = 1 / 2
    ∧ claimRemoveEnd (61 / 2) = 1
    ∧ codeRemoveEnd (61 / 2) ≠ claimRemoveEnd (61 / 2) := by
  have hc : codeRemoveEnd ((61 : ℚ) / 2) = 1 / 2 := by
    simp only [codeRemoveEnd]
    rw [if_neg (by norm_num)]
    norm_num
  have hm : claimRemoveEnd ((61 : ℚ) / 2) = 1 := by
    simp only [claimRemoveEnd]
    rw [max_eq_left (by norm_num)]
  refine ⟨?_, hc, hm, ?_⟩
  · have hq : busyQueuedState.dataQueue = [7] := by decide
    have hrs : busyQueuedState.readyState = .opened := by decide
    have hrem : busyQueuedState.removed = [] := by decide
    simp [updateendStep, hrs, hq, hrem, hc]
  · rw [hc, hm]
    norm_num

/-- C2 (amended): whenever the append of a queued segment raises a capacity
fault, the buffer performs exactly one eviction call with range
`[0, e]` where `e = bufferedEnd − 30` if that is positive and `1`
otherwise (the clamp to one unit applies only when the computed end is zero
or negative, not to positive values below one), then retries the same
append once when the primitive is no longer busy; if the primitive is still
busy after eviction the segment remains at the head of the Pending Queue,
and in every outcome the segment being appended is never lost. -/
theorem C2_amended (s : MSP) (d : Nat) (rest : List Nat) (bufEnd : ℚ)
    (removeBusy : Bool) (e2 : Option ApErr)
    (hrs : s.readyState = .opened) (hq : s.dataQueue = d :: rest) :
    (updateendStep s false (some .quota) bufEnd removeBusy e2).1.removed
      = s.removed ++ [(0, codeRemoveEnd bufEnd)]
    ∧ (removeBusy = true →
        (updateendStep s false (some .quota) bufEnd removeBusy e2).1.dataQueue = d :: rest
        ∧ (updateendStep s false (some .quota) bufEnd removeBusy e2).1.appended = s.appended
        ∧ (updateendStep s false (some .quota) bufEnd removeBusy e2).2 = none)
    ∧ (removeBusy = false → e2 = none →
        (updateendStep s false (some .quota) bufEnd removeBusy e2).1.appended
            = s.appended ++ [d]
        ∧ (updateendStep s false (some .quota) bufEnd removeBusy e2).1.dataQueue = rest
        ∧ (updateendStep s false (some .quota) bufEnd removeBusy e2).2 = none)
    ∧ (∀ err, removeBusy = false → e2 = some err →
        (updateendStep s false (some .quota) bufEnd removeBusy e2).1.dataQueue = d :: rest
        ∧ (updateendStep s false (some .quota) bufEnd removeBusy e2).1.appended = s.appended)
    ∧ ((updateendStep s false (some .quota) bufEnd removeBusy e2).1.dataQueue = d :: rest
        ∨ ((updateendStep s false (some .quota) bufEnd removeBusy e2).1.appended
              = s.appended ++ [d]
           ∧ (updateendStep s false (some .quota) bufEnd removeBusy e2).1.dataQueue = rest)) := by
  rcases removeBusy with _ | _ <;> cases e2 <;>
    simp [updateendStep, hrs, hq]

/-- C2 witness: the amended theorem applied at the reachable state with
segment 7 queued, a buffered end of 100 seconds, the primitive idle after
eviction and a clean retry. -/
theorem C2_witness :
    (updateendStep busyQueuedState false (some .quota) 100 false none).1.removed
      = busyQueuedState.removed ++ [(0, codeRemoveEnd 100)]
    ∧ (updateendStep busyQueuedState false (some .quota) 100 false none).1.appended
      = busyQueuedState.appended ++ [7]
    ∧ (updateendStep busyQueuedState false (some .quota) 100 false none).1.dataQueue = [] := by
  have h := C2_amended busyQueuedState 7 [] 100 false none rfl rfl
  exact ⟨h.1, (h.2.2.1 rfl rfl).1, (h.2.2.1 rfl rfl).2.1⟩

/-- C3 counterexample: in a reachable attached/open state with direct feed
enabled, a capacity fault raised by `appendBuffer` on the direct-feed fast
path inside `feed` is not caught (audio-plugin.js:110-116 has no
try/catch): it surfaces to the caller of `feed`, no eviction occurs, and
the segment is neither appended nor queued. -/
theorem C3_counterexample :
    (feedStep attachedState 5 (some .quota) false).2 = some (.append .quota)
    ∧ (feedStep attachedState 5 (some .quota) false).1.appended = []
    ∧ (feedStep attachedState 5 (some .quota) false).1.dataQueue = []
    ∧ (feedStep attachedState 5 (some .quota) false).1.removed = [] := by
  refine ⟨?_, ?_, ?_, ?_⟩ <;> decide

/-- C3 (amended): a capacity fault raised while appending a queued segment
in the append-completion handler is recovered locally (eviction, then a
retry when the primitive is idle) and never escapes the handler, while a
non-capacity fault there is rethrown; but a capacity fault raised by the
direct-feed fast path inside `feed` propagates to the caller of `feed`
unrecovered. -/
theorem C3_amended (s : MSP) (d : Nat) (rest : List Nat) (bufEnd : ℚ)
    (rb b : Bool) (hrs : s.readyState = .opened) :
    (s.dataQueue = d :: rest →
      (updateendStep s false (some .quota) bufEnd rb none).2 = none)
    ∧ (s.dataQueue = d :: rest →
      (updateendStep s false (some .other) bufEnd rb none).2 = some (.append .other))
    ∧ (s.attachedEl = true → s.directFeed = true →
      (feedStep s d (some .quota) b).2 = some (.append .quota)) := by
  refine ⟨?_, ?_, ?_⟩
  · intro hq
    rcases rb with _ | _ <;> simp [updateendStep, hrs, hq]
  · intro hq
    simp [updateendStep, hrs, hq]
  · intro hA hD
    simp [feedStep, hrs, hA, hD]

/-- C3 witness: the amended theorem applied at reachable states — a queued
capacity fault at `busyQueuedState` is swallowed, a direct-path capacity
fault at `attachedState` reaches `feed`'s caller. -/
theorem C3_witness :
    (updateendStep busyQueuedState false (some .quota) 100 true none).2 = none
    ∧ (feedStep attachedState 5 (some .quota) false).2 = some (.append .quota) := by
  refine ⟨?_, ?_⟩
  · exact (C3_amended busyQueuedState 7 [] 100 true false rfl).1 rfl
  · exact (C3_amended attachedState 5 [] 100 true false rfl).2.2 rfl rfl

/-- C7 counterexample: after an attach followed by two detach calls, a new
`attach` on the same instance fails with `AlreadyAttachedError`, because
`detach` never clears the `#attachedEl` field (audio-plugin.js:91-99), so
the `attach` guard at line 76 still fires. -/
theorem C7_counterexample :
    (attachStep (run [.attach, .sourceopen, .detach, .detach])).2
      = some MSErr.alreadyAttached := by
  decide

/-- C7 (amended): `detach()` is idempotent and error-free — its body has no
throw path (`detachStep` is total) and running it twice from any state
yields the same state as running it once — but it does not release the
attachment binding, so a subsequent `attach` on the same instance from any
attached state fails with `AlreadyAttachedError` rather than succeeding; a
fresh instance is required to attach again. -/
theorem C7_amended (s : MSP) (h : s.attachedEl = true) :
    detachStep (detachStep s) = detachStep s
    ∧ (attachStep (detachStep s)).2 = some MSErr.alreadyAttached := by
  constructor
  · simp [detachStep, h]
  · simp [detachStep, attachStep, h]

/-- C7 witness: the amended theorem at the reachable attached state. -/
theorem C7_witness :
    detachStep (detachStep attachedState) = detachStep attachedState
    ∧ (attachStep (detachStep attachedState)).2 = some MSErr.alreadyAttached :=
  C7_amended attachedState rfl

/-- C8 counterexample: in the window after `attach` has been invoked (the
`#attachedEl` field is set synchronously, audio-plugin.js:82) but before
the `sourceopen` event resolves it, `feed` raises the bad-state error
(`InvalidStateError`), not `NotAttachedError`, because the `#attachedEl`
guard at line 102 already passes while `readyState` is still `closed`. -/
theorem C8_counterexample :
    (feedStep (run [.attach]) 5 none false).2 = some MSErr.invalidState
    ∧ some MSErr.invalidState ≠ some MSErr.notAttached := by
  refine ⟨?_, ?_⟩ <;> decide

/-- C8 (amended): `feed` called before `attach` has been invoked raises
`NotAttachedError`; `feed` called after `attach`'s synchronous binding but
before the primitive reaches its open state (and generally whenever the
primitive is attached but not open) raises `InvalidStateError`; in all
these cases some error is raised, no append occurs and the Pending Queue is
unchanged — a segment is never silently dropped. -/
theorem C8_amended (s : MSP) (d : Nat) (apErr : Option ApErr) (b : Bool)
    (h : s.attachedEl = false ∨ s.readyState ≠ .opened) :
    ((feedStep s d apErr b).2).isSome = true
    ∧ (feedStep s d apErr b).1.dataQueue = s.dataQueue
    ∧ (feedStep s d apErr b).1.appended = s.appended
    ∧ (s.attachedEl = false → (feedStep s d apErr b).2 = some MSErr.notAttached)
    ∧ (s.attachedEl = true → s.readyState ≠ .opened →
        (feedStep s d apErr b).2 = some MSErr.invalidState) := by
  rcases hA : s.attachedEl with _ | _
  · refine ⟨?_, ?_, ?_, ?_, ?_⟩ <;> simp [feedStep, hA]
  · have hR : s.readyState ≠ .opened := by
      rcases h with h | h
      · rw [hA] at h
        exact absurd h (by simp)
      · exact h
    refine ⟨?_, ?_, ?_, ?_, ?_⟩ <;> simp [feedStep, hA, hR]

/-- C8 witness: the amended theorem at the fresh instance (not attached) and
at the mid-attach state (attached, primitive not yet open). -/
theorem C8_witness :
    (feedStep MSP.init 5 none false).2 = some MSErr.notAttached
    ∧ (feedStep MSP.init 5 none false).1.dataQueue = []
    ∧ (feedStep (run [.attach]) 5 none false).2 = some MSErr.invalidState := by
  have hinit := C8_amended MSP.init 5 none false (Or.inl rfl)
  have hmid := C8_amended (run [.attach]) 5 none false (Or.inr (by decide))
  exact ⟨hinit.2.2.2.1 rfl, hinit.2.1, hmid.2.2.2.2 rfl (by decide)⟩

/-- C9 counterexample: a reachable state with segments 7 and 9 pending;
after `detach()` returns, the Pending Queue still holds both segments,
because `detach` (audio-plugin.js:91-99) never touches `#dataQueue`. -/
theorem C9_counterexample :
    (detachStep queuedTwoState).dataQueue = [7, 9]
    ∧ (detachStep queuedTwoState).dataQueue ≠ [] := by
  refine ⟨?_, ?_⟩ <;> decide

/-- C9 (amended): `detach()` leaves the Pending Queue exactly as it was and
appends nothing: queued segments are neither appended nor cleared by
`detach` itself; they are discarded only when the buffer instance is
dropped (as `stopAudio` does right after detaching), and no error is
raised (the function is total). -/
theorem C9_detach_queue (s : MSP) :
    (detachStep s).dataQueue = s.dataQueue
    ∧ (detachStep s).appended = s.appended := by
  unfold detachStep
  split <;> simp

/-- C10: `stopAudio()` always leaves both session fields cleared — after any
call `msp` is null and `ws` is null — and an immediately repeated call is a
no-op that performs no detach and no close (and raises no error:
`stopAudio` is total because `detachStep` and `close` are). -/
theorem C10_stop_idempotent (p : PluginState) :
    (stopAudio p).1.msp = none
    ∧ (stopAudio p).1.ws = false
    ∧ stopAudio (stopAudio p).1 = ((stopAudio p).1, false, false) := by
  cases hm : p.msp <;> rcases hw : p.ws with _ | _ <;>
    simp [stopAudio, hm, hw]

/-- C4: with `codec=opus`, `bitrate=96000`, `sampleRate=48000` and a null
secret the serialized handshake message is exactly
`CD:opus\nBR:96000\nSR:48000\n\n\n` with no secret line, and for every
non-null secret a line with the lowercase key `sec:` followed by the secret
is inserted after the empty line and before the final newline. -/
theorem C4_handshake_serialization :
    handshakeMsg "opus" "96000" "48000" none = "CD:opus\nBR:96000\nSR:48000\n\n\n"
    ∧ ∀ codec bitrate sampleRate secret,
        handshakeMsg codec bitrate sampleRate (some secret) =
          "CD:" ++ codec ++ "\nBR:" ++ bitrate ++ "\nSR:" ++ sampleRate
            ++ "\n\n" ++ "sec:" ++ secret ++ "\n" := by
  exact ⟨rfl, fun _ _ _ _ => rfl⟩

/-- C5: evaluation of the handshake message listener at the failing input.
On `READY` the promise resolves.  On `ERR:bad secret` the listener throws
`Error('Proxy error: bad secret')` — note the prefixed message, not the
bare reason `bad secret` — and it does so inside the event-listener
callback, after the promise executor has already returned; since the
executor captured no `reject`, the promise stays pending forever, the
`await` in `startAudio` never completes, its `catch` block never runs and
the channel is never closed.  The error is only reported as an uncaught
exception in the event loop. -/
theorem C5_code_eval :
    handshakeOnMessage "READY" = (.resolvedP, none)
    ∧ handshakeOnMessage "ERR:bad secret"
        = (.pending, some "Proxy error: bad secret")
    ∧ "Proxy error: bad secret" ≠ "bad secret" := by
  refine ⟨?_, ?_, ?_⟩ <;> decide

/-- C6: evaluation of the handshake invocation `startAudio` performs at the
failing input.  `startAudio` reads `audio_codec`, `audio_bitrate` and
`audio_samplerate` but never `audio_secret`, and calls
`AudioProxy.handshake(this.ws, codec, bitrate, samplerate)` with no secret
argument (audio-plugin.js:367), so the parameter defaults to null: even
with the secret setting configured to `hunter2` the serialized message has
no `sec:` line, and it differs from the message the claim requires (the
same parameters with the secret included). -/
theorem C6_code_eval :
    startAudioHandshakeMsg
        { audio_codec := "opus", audio_bitrate := "96000",
          audio_samplerate := "48000", audio_secret := some "hunter2" }
      = "CD:opus\nBR:96000\nSR:48000\n\n\n"
    ∧ startAudioHandshakeMsg
        { audio_codec := "opus", audio_bitrate := "96000",
          audio_samplerate := "48000", audio_secret := some "hunter2" }
      ≠ handshakeMsg "opus" "96000" "48000" (some "hunter2")
    ∧ ∀ st : Settings, startAudioHandshakeMsg st
        = handshakeMsg st.audio_codec st.audio_bitrate st.audio_samplerate none := by
  refine ⟨rfl, ?_, fun _ => rfl⟩
  decide

end NoVNCAudio
